import Mathlib

/-!
# Verification of the RentCast MCP server tool layer

Shallow embedding of `src/rentcast_mcp_server/server.py`: the per-tool
response handling (status dispatch, 404 recovery, list coercion,
valuation/rent-estimate enrichment), the query-parameter construction
(`params = {...}` followed by removal of `None` values), the per-tool
argument signatures, and the startup API-key check.

Each tool is modelled by
* a request-construction function (`<tool>_request` / `<tool>_params`)
  built from the tool's Python signature, and
* a response handler (`<tool>_handle`) mapping the upstream HTTP response
  (status code plus parsed JSON body) to the tool's outcome: a returned
  JSON value, a propagated `httpx.HTTPStatusError` (modelled as
  `ToolResult.httpError status`), or a propagated Python type error
  (`ToolResult.typeError`, raised when `.keys()` is called on a non-object).
-/

namespace RentCast

/-- Parsed JSON values, as produced by `response.json()`.  Numbers are
modelled as integers; no claim depends on non-integral numerics. -/
inductive Json where
  | null : Json
  | bool : Bool → Json
  | num : Int → Json
  | str : String → Json
  | arr : List Json → Json
  | obj : List (String × Json) → Json

/-- Python truthiness of a JSON value (`if data` / `if not data`):
`None`, `False`, `0`, `""`, `[]` and `{}` are falsy, everything else truthy. -/
def Json.isTruthy : Json → Bool
  | Json.null => false
  | Json.bool b => b
  | Json.num n => n != 0
  | Json.str s => s != ""
  | Json.arr xs => !xs.isEmpty
  | Json.obj fs => !fs.isEmpty

/-- An upstream HTTP response: status code and parsed JSON body. -/
structure Response where
  status : Nat
  body : Json

/-- Outcome of one tool call: a returned JSON value, a propagated
`HTTPStatusError` carrying the status, or a propagated Python type error. -/
inductive ToolResult where
  | ok : Json → ToolResult
  | httpError : Nat → ToolResult
  | typeError : ToolResult

/-- `response.raise_for_status()` raises exactly when the status is not 2xx. -/
def is2xx (s : Nat) : Bool := decide (200 ≤ s ∧ s < 300)

/-- `xs` starts with `pre` (character lists). -/
def charsStartWith : List Char → List Char → Bool
  | [], _ => true
  | _ :: _, [] => false
  | a :: pre, b :: rest => a == b && charsStartWith pre rest

/-- Python's substring test `needle in hay`. -/
def strContains (needle hay : String) : Bool :=
  (List.range (hay.toList.length + 1)).any
    (fun i => charsStartWith needle.toList (hay.toList.drop i))

/-- Python's `str.lower()`, character-wise ASCII lowering (all keys and
keywords involved are ASCII). -/
def lowerString (s : String) : String := ⟨s.data.map Char.toLower⟩

/-- Python dict membership `k in d` on an (duplicate-free) association list. -/
def hasKey (fs : List (String × Json)) (k : String) : Bool :=
  fs.any (fun kv => kv.fst == k)

/-- Python dict lookup `d[k]`, defaulting to `null` (never reached when the
membership test guards the lookup). -/
def getKeyD (fs : List (String × Json)) (k : String) : Json :=
  match fs.find? (fun kv => kv.fst == k) with
  | some kv => kv.snd
  | none => Json.null

/-- Python dict assignment `d[k] = v`: replaces the value in place when the
key is present, otherwise appends the new entry at the end. -/
def setKey (fs : List (String × Json)) (k : String) (v : Json) : List (String × Json) :=
  if hasKey fs k then fs.map (fun kv => if kv.fst == k then (k, v) else kv)
  else fs ++ [(k, v)]

/-- Keyword set of `get_property_valuation`. -/
def valuationTerms : List String := ["value", "estimate", "price", "valuation", "worth"]

/-- Keyword set of `get_rent_estimate`. -/
def rentTerms : List String := ["rent", "rental", "estimate", "monthly"]

/-- The explanatory field value appended by `get_property_valuation`. -/
def valuationNote : String :=
  "API returned basic property data. Valuation data may require higher subscription tier or different endpoint."

/-- The explanatory field value appended by `get_rent_estimate`. -/
def rentNote : String :=
  "API returned basic property data. Rent estimate data may require higher subscription tier or different endpoint."

/-- The enrichment step shared by `get_property_valuation` and
`get_rent_estimate`: collect the top-level keys whose lowercasing contains
some keyword; when none match and there are at most 15 keys, set the
`_note` field. -/
def enrichFields (terms : List String) (note : String) (fs : List (String × Json)) : List (String × Json) :=
  let matching := (fs.map Prod.fst).filter (fun k => terms.any (fun t => strContains t (lowerString k)))
  if matching.isEmpty && decide (fs.length ≤ 15) then setKey fs "_note" (Json.str note) else fs

/-- The 404 recovery payload shared by `get_property_data`,
`get_property_valuation` and `get_rent_estimate`. -/
def notFoundPayload : Json :=
  Json.obj [("error", Json.str "Property not found"),
            ("suggestions", Json.arr [Json.str "Check property ID format",
                                      Json.str "Try searching by address first"])]

/-- The list-shape coercion shared by `get_property_records`,
`get_random_property_records`, `get_sale_listings` and
`get_rental_listings`: a list is returned as-is; a dict containing
`wrapKey` yields that field's value; anything else is wrapped into a
one-element list when truthy and becomes `[]` when falsy
(`return [data] if data else []`). -/
def listCoerce (wrapKey : String) (data : Json) : Json :=
  match data with
  | Json.arr xs => Json.arr xs
  | Json.obj fs =>
      if hasKey fs wrapKey then getKeyD fs wrapKey
      else if (Json.obj fs).isTruthy then Json.arr [Json.obj fs] else Json.arr []
  | other => if other.isTruthy then Json.arr [other] else Json.arr []

/-! ## Response handlers

Each `<tool>_handle` is the translation of the body of the corresponding
`async def` after the single upstream GET: the 2xx branch returns (possibly
normalized) JSON, an `HTTPStatusError` is caught for 404 only where the
source has an explicit `status_code == 404` case, and every other non-2xx
status is re-raised. -/

/-- `get_property_data` (server.py lines 83-98): pass-through with
404 → suggestion payload. -/
def get_property_data_handle (r : Response) : ToolResult :=
  if is2xx r.status then ToolResult.ok r.body
  else if r.status == 404 then ToolResult.ok notFoundPayload
  else ToolResult.httpError r.status

/-- `get_property_valuation` (lines 100-122): enrichment on 2xx objects,
404 → suggestion payload.  A 2xx non-object body makes `data.keys()` raise
(`ToolResult.typeError`), which the generic handler re-raises. -/
def get_property_valuation_handle (r : Response) : ToolResult :=
  if is2xx r.status then
    match r.body with
    | Json.obj fs => ToolResult.ok (Json.obj (enrichFields valuationTerms valuationNote fs))
    | _ => ToolResult.typeError
  else if r.status == 404 then ToolResult.ok notFoundPayload
  else ToolResult.httpError r.status

/-- `get_rent_estimate` (lines 124-146): enrichment on 2xx objects,
404 → suggestion payload. -/
def get_rent_estimate_handle (r : Response) : ToolResult :=
  if is2xx r.status then
    match r.body with
    | Json.obj fs => ToolResult.ok (Json.obj (enrichFields rentTerms rentNote fs))
    | _ => ToolResult.typeError
  else if r.status == 404 then ToolResult.ok notFoundPayload
  else ToolResult.httpError r.status

/-- `get_market_statistics` (lines 148-170): plain pass-through; the only
`except` clause re-raises, so every non-2xx status (404 included) propagates. -/
def get_market_statistics_handle (r : Response) : ToolResult :=
  if is2xx r.status then ToolResult.ok r.body else ToolResult.httpError r.status

/-- `get_property_listings` (lines 172-198): plain pass-through; every
non-2xx status (404 included) propagates. -/
def get_property_listings_handle (r : Response) : ToolResult :=
  if is2xx r.status then ToolResult.ok r.body else ToolResult.httpError r.status

/-- Shared shape of the four list tools: list coercion on 2xx,
404 → `[]`, other non-2xx re-raised. -/
def listToolHandle (wrapKey : String) (r : Response) : ToolResult :=
  if is2xx r.status then ToolResult.ok (listCoerce wrapKey r.body)
  else if r.status == 404 then ToolResult.ok (Json.arr [])
  else ToolResult.httpError r.status

/-- `get_property_records` (lines 200-255): list coercion with wrapping key
`"properties"`, 404 → `[]`. -/
def get_property_records_handle (r : Response) : ToolResult :=
  listToolHandle "properties" r

/-- `get_random_property_records` (lines 257-292): list coercion with
wrapping key `"properties"`, 404 → `[]`. -/
def get_random_property_records_handle (r : Response) : ToolResult :=
  listToolHandle "properties" r

/-- `get_property_record_by_id` (lines 294-304): plain pass-through; the
only `except` clause re-raises, so every non-2xx status (404 included)
propagates. -/
def get_property_record_by_id_handle (r : Response) : ToolResult :=
  if is2xx r.status then ToolResult.ok r.body else ToolResult.httpError r.status

/-- `get_sale_listings` (lines 306-361): list coercion with wrapping key
`"listings"`, 404 → `[]`. -/
def get_sale_listings_handle (r : Response) : ToolResult :=
  listToolHandle "listings" r

/-- `get_sale_listing_by_id` (lines 363-373): plain pass-through; every
non-2xx status (404 included) propagates. -/
def get_sale_listing_by_id_handle (r : Response) : ToolResult :=
  if is2xx r.status then ToolResult.ok r.body else ToolResult.httpError r.status

/-- `get_rental_listings` (lines 375-430): list coercion with wrapping key
`"listings"`, 404 → `[]`. -/
def get_rental_listings_handle (r : Response) : ToolResult :=
  listToolHandle "listings" r

/-- `get_rental_listing_by_id` (lines 432-442): plain pass-through; every
non-2xx status (404 included) propagates. -/
def get_rental_listing_by_id_handle (r : Response) : ToolResult :=
  if is2xx r.status then ToolResult.ok r.body else ToolResult.httpError r.status

/-! ## Query-parameter construction

Every tool builds `params` as a dict of camelCase keys whose values are the
raw Python arguments, then drops the `None` entries
(`params = {k: v for k, v in params.items() if v is not None}`).
Supplied arguments are modelled as `some`, unsupplied ones as `none`.
`bathrooms` is a float in the source; its value plays no role in any claim
and is modelled as an integer. -/

/-- The dict comprehension `{k: v for k, v in params.items() if v is not None}`. -/
def removeNone (pairs : List (String × Option Json)) : List (String × Json) :=
  pairs.filterMap (fun kv => kv.snd.map (fun v => (kv.fst, v)))

/-- Query parameters of `get_market_statistics` (lines 157-163):
`zip_code` is a required `str`, the rest optional. -/
def get_market_statistics_params (zip_code : String) (property_type : Option String)
    (bedrooms : Option Int) : List (String × Json) :=
  removeNone [("zipCode", some (Json.str zip_code)),
              ("propertyType", property_type.map Json.str),
              ("bedrooms", bedrooms.map Json.num)]

/-- Query parameters of `get_property_listings` (lines 183-191):
`zip_code` is a required `str`, the rest optional. -/
def get_property_listings_params (zip_code : String) (property_type : Option String)
    (min_price max_price bedrooms : Option Int) : List (String × Json) :=
  removeNone [("zipCode", some (Json.str zip_code)),
              ("propertyType", property_type.map Json.str),
              ("minPrice", min_price.map Json.num),
              ("maxPrice", max_price.map Json.num),
              ("bedrooms", bedrooms.map Json.num)]

/-- Query parameters of `get_property_records` (lines 219-235): thirteen
optional filters. -/
def get_property_records_params (zip_code city state property_type : Option String)
    (bedrooms bathrooms min_price max_price min_square_feet max_square_feet
      year_built page page_size : Option Int) : List (String × Json) :=
  removeNone [("zipCode", zip_code.map Json.str),
              ("city", city.map Json.str),
              ("state", state.map Json.str),
              ("propertyType", property_type.map Json.str),
              ("bedrooms", bedrooms.map Json.num),
              ("bathrooms", bathrooms.map Json.num),
              ("minPrice", min_price.map Json.num),
              ("maxPrice", max_price.map Json.num),
              ("minSquareFeet", min_square_feet.map Json.num),
              ("maxSquareFeet", max_square_feet.map Json.num),
              ("yearBuilt", year_built.map Json.num),
              ("page", page.map Json.num),
              ("pageSize", page_size.map Json.num)]

/-- Query parameters of `get_random_property_records` (lines 266-272):
three optional filters. -/
def get_random_property_records_params (limit : Option Int)
    (property_type state : Option String) : List (String × Json) :=
  removeNone [("limit", limit.map Json.num),
              ("propertyType", property_type.map Json.str),
              ("state", state.map Json.str)]

/-- Query parameters of `get_sale_listings` (lines 325-341): the same
thirteen optional filters as `get_property_records`. -/
def get_sale_listings_params (zip_code city state property_type : Option String)
    (bedrooms bathrooms min_price max_price min_square_feet max_square_feet
      year_built page page_size : Option Int) : List (String × Json) :=
  removeNone [("zipCode", zip_code.map Json.str),
              ("city", city.map Json.str),
              ("state", state.map Json.str),
              ("propertyType", property_type.map Json.str),
              ("bedrooms", bedrooms.map Json.num),
              ("bathrooms", bathrooms.map Json.num),
              ("minPrice", min_price.map Json.num),
              ("maxPrice", max_price.map Json.num),
              ("minSquareFeet", min_square_feet.map Json.num),
              ("maxSquareFeet", max_square_feet.map Json.num),
              ("yearBuilt", year_built.map Json.num),
              ("page", page.map Json.num),
              ("pageSize", page_size.map Json.num)]

/-- Query parameters of `get_rental_listings` (lines 394-410): the same
thirteen optional filters as `get_property_records`. -/
def get_rental_listings_params (zip_code city state property_type : Option String)
    (bedrooms bathrooms min_price max_price min_square_feet max_square_feet
      year_built page page_size : Option Int) : List (String × Json) :=
  removeNone [("zipCode", zip_code.map Json.str),
              ("city", city.map Json.str),
              ("state", state.map Json.str),
              ("propertyType", property_type.map Json.str),
              ("bedrooms", bedrooms.map Json.num),
              ("bathrooms", bathrooms.map Json.num),
              ("minPrice", min_price.map Json.num),
              ("maxPrice", max_price.map Json.num),
              ("minSquareFeet", min_square_feet.map Json.num),
              ("maxSquareFeet", max_square_feet.map Json.num),
              ("yearBuilt", year_built.map Json.num),
              ("page", page.map Json.num),
              ("pageSize", page_size.map Json.num)]

/-! ## Upstream requests -/

/-- The single upstream GET a tool issues: path plus query parameters. -/
structure Request where
  path : String
  params : List (String × Json)

/-- `get_property_data` requests `GET /properties/{property_id}` with no
query parameters (line 88). -/
def get_property_data_request (property_id : String) : Request :=
  { path := "/properties/" ++ property_id, params := [] }

/-- `get_property_valuation` requests `GET /properties/{property_id}/valuation`
(line 105). -/
def get_property_valuation_request (property_id : String) : Request :=
  { path := "/properties/" ++ property_id ++ "/valuation", params := [] }

/-- `get_rent_estimate` requests `GET /properties/{property_id}/rent-estimate`
(line 129). -/
def get_rent_estimate_request (property_id : String) : Request :=
  { path := "/properties/" ++ property_id ++ "/rent-estimate", params := [] }

/-- `get_market_statistics` requests `GET /markets` (line 165). -/
def get_market_statistics_request (zip_code : String) (property_type : Option String)
    (bedrooms : Option Int) : Request :=
  { path := "/markets", params := get_market_statistics_params zip_code property_type bedrooms }

/-- `get_property_listings` requests `GET /properties` (line 193). -/
def get_property_listings_request (zip_code : String) (property_type : Option String)
    (min_price max_price bedrooms : Option Int) : Request :=
  { path := "/properties",
    params := get_property_listings_params zip_code property_type min_price max_price bedrooms }

/-- `get_property_record_by_id` requests `GET /properties/{property_id}` with
no query parameters (line 299). -/
def get_property_record_by_id_request (property_id : String) : Request :=
  { path := "/properties/" ++ property_id, params := [] }

/-- `get_sale_listing_by_id` requests `GET /listings/sale/{listing_id}`
(line 368). -/
def get_sale_listing_by_id_request (listing_id : String) : Request :=
  { path := "/listings/sale/" ++ listing_id, params := [] }

/-- `get_rental_listing_by_id` requests `GET /listings/rental/{listing_id}`
(line 437). -/
def get_rental_listing_by_id_request (listing_id : String) : Request :=
  { path := "/listings/rental/" ++ listing_id, params := [] }

/-! ## Tool argument signatures

One entry per parameter of the Python `async def`, in order; a parameter is
required exactly when it has no default value in the signature. -/

/-- One declared tool argument: its Python name and whether it is required
(no default value in the `async def` signature). -/
structure ArgSpec where
  name : String
  required : Bool
deriving DecidableEq

/-- Signature of `get_property_data(property_id: str)`. -/
def get_property_data_args : List ArgSpec := [⟨"property_id", true⟩]

/-- Signature of `get_property_valuation(property_id: str)`. -/
def get_property_valuation_args : List ArgSpec := [⟨"property_id", true⟩]

/-- Signature of `get_rent_estimate(property_id: str)`. -/
def get_rent_estimate_args : List ArgSpec := [⟨"property_id", true⟩]

/-- Signature of `get_market_statistics(zip_code: str, property_type=None, bedrooms=None)`
(lines 149-153): `zip_code` has no default and is required. -/
def get_market_statistics_args : List ArgSpec :=
  [⟨"zip_code", true⟩, ⟨"property_type", false⟩, ⟨"bedrooms", false⟩]

/-- Signature of `get_property_listings(zip_code: str, property_type=None,
min_price=None, max_price=None, bedrooms=None)` (lines 173-179): `zip_code`
has no default and is required. -/
def get_property_listings_args : List ArgSpec :=
  [⟨"zip_code", true⟩, ⟨"property_type", false⟩, ⟨"min_price", false⟩,
   ⟨"max_price", false⟩, ⟨"bedrooms", false⟩]

/-- Signature of `get_property_records` (lines 201-215): thirteen optional
filters, all defaulted to `None`. -/
def get_property_records_args : List ArgSpec :=
  [⟨"zip_code", false⟩, ⟨"city", false⟩, ⟨"state", false⟩, ⟨"property_type", false⟩,
   ⟨"bedrooms", false⟩, ⟨"bathrooms", false⟩, ⟨"min_price", false⟩, ⟨"max_price", false⟩,
   ⟨"min_square_feet", false⟩, ⟨"max_square_feet", false⟩, ⟨"year_built", false⟩,
   ⟨"page", false⟩, ⟨"page_size", false⟩]

/-- Signature of `get_random_property_records(limit=None, property_type=None, state=None)`
(lines 258-262). -/
def get_random_property_records_args : List ArgSpec :=
  [⟨"limit", false⟩, ⟨"property_type", false⟩, ⟨"state", false⟩]

/-- Signature of `get_property_record_by_id(property_id: str)`. -/
def get_property_record_by_id_args : List ArgSpec := [⟨"property_id", true⟩]

/-- Signature of `get_sale_listings` (lines 307-321): thirteen optional
filters, all defaulted to `None`. -/
def get_sale_listings_args : List ArgSpec :=
  [⟨"zip_code", false⟩, ⟨"city", false⟩, ⟨"state", false⟩, ⟨"property_type", false⟩,
   ⟨"bedrooms", false⟩, ⟨"bathrooms", false⟩, ⟨"min_price", false⟩, ⟨"max_price", false⟩,
   ⟨"min_square_feet", false⟩, ⟨"max_square_feet", false⟩, ⟨"year_built", false⟩,
   ⟨"page", false⟩, ⟨"page_size", false⟩]

/-- Signature of `get_sale_listing_by_id(listing_id: str)`. -/
def get_sale_listing_by_id_args : List ArgSpec := [⟨"listing_id", true⟩]

/-- Signature of `get_rental_listings` (lines 376-390): thirteen optional
filters, all defaulted to `None`. -/
def get_rental_listings_args : List ArgSpec :=
  [⟨"zip_code", false⟩, ⟨"city", false⟩, ⟨"state", false⟩, ⟨"property_type", false⟩,
   ⟨"bedrooms", false⟩, ⟨"bathrooms", false⟩, ⟨"min_price", false⟩, ⟨"max_price", false⟩,
   ⟨"min_square_feet", false⟩, ⟨"max_square_feet", false⟩, ⟨"year_built", false⟩,
   ⟨"page", false⟩, ⟨"page_size", false⟩]

/-- Signature of `get_rental_listing_by_id(listing_id: str)`. -/
def get_rental_listing_by_id_args : List ArgSpec := [⟨"listing_id", true⟩]

/-! ## Startup -/

/-- Outcome of starting the process: either the server runs, or the process
terminated first with an exit code and a diagnostic on stderr. -/
inductive StartOutcome where
  | serving : StartOutcome
  | exited : Nat → String → StartOutcome
deriving DecidableEq

/-- Startup (server.py lines 66-68 and 444-455): `os.getenv` yields the
environment value (`none` when absent); `if not RENTCAST_API_KEY` fires on
`None` and on the empty string and raises
`ValueError("RENTCAST_API_KEY environment variable is required")` at module
load, before `mcp.run()`.  An uncaught exception terminates the interpreter
with exit status 1 and the message printed to stderr. -/
def startProcess (env : Option String) : StartOutcome :=
  match env with
  | none => StartOutcome.exited 1 "RENTCAST_API_KEY environment variable is required"
  | some key =>
      if key == "" then StartOutcome.exited 1 "RENTCAST_API_KEY environment variable is required"
      else StartOutcome.serving

/-- Discriminator: did the tool return normally? -/
def ToolResult.isOk : ToolResult → Bool
  | ToolResult.ok _ => true
  | _ => false

/-! ## Claims -/

/-- C1, counterexample: `get_sale_listing_by_id` is an entity-lookup tool,
yet on an upstream 404 it propagates the `HTTPStatusError` instead of
returning the suggestion object — it has no 404 recovery branch. -/
theorem C1_counterexample :
    get_sale_listing_by_id_handle ⟨404, Json.null⟩ = ToolResult.httpError 404 ∧
    (get_sale_listing_by_id_handle ⟨404, Json.null⟩).isOk = false :=
  ⟨rfl, rfl⟩

/-- C1 (amended): on an upstream 404, `get_property_data`,
`get_property_valuation` and `get_rent_estimate` return normally with the
object carrying the error message and exactly the two fixed suggestion
strings, while `get_property_record_by_id`, `get_sale_listing_by_id` and
`get_rental_listing_by_id` propagate the error. -/
theorem C1_amended : ∀ b : Json,
    get_property_data_handle ⟨404, b⟩ = ToolResult.ok notFoundPayload ∧
    get_property_valuation_handle ⟨404, b⟩ = ToolResult.ok notFoundPayload ∧
    get_rent_estimate_handle ⟨404, b⟩ = ToolResult.ok notFoundPayload ∧
    get_property_record_by_id_handle ⟨404, b⟩ = ToolResult.httpError 404 ∧
    get_sale_listing_by_id_handle ⟨404, b⟩ = ToolResult.httpError 404 ∧
    get_rental_listing_by_id_handle ⟨404, b⟩ = ToolResult.httpError 404 :=
  fun _ => ⟨rfl, rfl, rfl, rfl, rfl, rfl⟩

/-- C2, counterexample: `get_market_statistics` is a list/search tool, yet
on an upstream 404 it propagates the `HTTPStatusError` instead of
returning the empty sequence — its only `except` clause re-raises. -/
theorem C2_counterexample :
    get_market_statistics_handle ⟨404, Json.null⟩ = ToolResult.httpError 404 ∧
    (get_market_statistics_handle ⟨404, Json.null⟩).isOk = false :=
  ⟨rfl, rfl⟩

/-- C2 (amended): on an upstream 404, the four list tools
`get_property_records`, `get_random_property_records`, `get_sale_listings`
and `get_rental_listings` return the empty sequence, while
`get_market_statistics` and `get_property_listings` propagate the error. -/
theorem C2_amended : ∀ b : Json,
    get_property_records_handle ⟨404, b⟩ = ToolResult.ok (Json.arr []) ∧
    get_random_property_records_handle ⟨404, b⟩ = ToolResult.ok (Json.arr []) ∧
    get_sale_listings_handle ⟨404, b⟩ = ToolResult.ok (Json.arr []) ∧
    get_rental_listings_handle ⟨404, b⟩ = ToolResult.ok (Json.arr []) ∧
    get_market_statistics_handle ⟨404, b⟩ = ToolResult.httpError 404 ∧
    get_property_listings_handle ⟨404, b⟩ = ToolResult.httpError 404 :=
  fun _ => ⟨rfl, rfl, rfl, rfl, rfl, rfl⟩

/-- C5, counterexample: `get_market_statistics` and `get_property_listings`
cannot be invoked with no arguments — `zip_code` has no default value in
either Python signature, so it is a required argument of both filter/search
tools. -/
theorem C5_counterexample :
    get_market_statistics_args.any (fun a => a.required) = true ∧
    get_property_listings_args.any (fun a => a.required) = true ∧
    (get_market_statistics_args.filter (fun a => a.required)).map ArgSpec.name = ["zip_code"] ∧
    (get_property_listings_args.filter (fun a => a.required)).map ArgSpec.name = ["zip_code"] := by
  decide

/-- C5 (amended): each entity-lookup tool requires exactly its identifier;
the four list tools `get_property_records`, `get_random_property_records`,
`get_sale_listings` and `get_rental_listings` have every argument optional;
but the filter tools `get_market_statistics` and `get_property_listings`
additionally require `zip_code`. -/
theorem C5_amended :
    (get_property_data_args.filter (fun a => a.required)).map ArgSpec.name = ["property_id"] ∧
    (get_property_valuation_args.filter (fun a => a.required)).map ArgSpec.name = ["property_id"] ∧
    (get_rent_estimate_args.filter (fun a => a.required)).map ArgSpec.name = ["property_id"] ∧
    (get_property_record_by_id_args.filter (fun a => a.required)).map ArgSpec.name = ["property_id"] ∧
    (get_sale_listing_by_id_args.filter (fun a => a.required)).map ArgSpec.name = ["listing_id"] ∧
    (get_rental_listing_by_id_args.filter (fun a => a.required)).map ArgSpec.name = ["listing_id"] ∧
    get_property_records_args.all (fun a => !a.required) = true ∧
    get_random_property_records_args.all (fun a => !a.required) = true ∧
    get_sale_listings_args.all (fun a => !a.required) = true ∧
    get_rental_listings_args.all (fun a => !a.required) = true ∧
    (get_market_statistics_args.filter (fun a => a.required)).map ArgSpec.name = ["zip_code"] ∧
    (get_property_listings_args.filter (fun a => a.required)).map ArgSpec.name = ["zip_code"] := by
  decide

/-- C9: when the API-key environment variable is absent (or empty, which is
equally falsy in Python), the process never reaches `mcp.run()`: it exits
with status 1 and a diagnostic naming `RENTCAST_API_KEY`. -/
theorem C9_startup_requires_api_key :
    startProcess none = StartOutcome.exited 1 "RENTCAST_API_KEY environment variable is required" ∧
    startProcess (some "") = StartOutcome.exited 1 "RENTCAST_API_KEY environment variable is required" ∧
    startProcess none ≠ StartOutcome.serving ∧
    (1 : Nat) ≠ 0 ∧
    strContains "RENTCAST_API_KEY" "RENTCAST_API_KEY environment variable is required" = true := by
  refine ⟨rfl, rfl, ?_, by decide, by decide⟩
  intro h
  exact StartOutcome.noConfusion h

/-- C6: on every tool, an upstream status that is neither 2xx nor 404
propagates as the failed call `ToolResult.httpError s`; no tool recovers it
into an empty sequence or placeholder object. -/
theorem C6_other_statuses_propagate : ∀ (s : Nat) (b : Json),
    is2xx s = false → s ≠ 404 →
    get_property_data_handle ⟨s, b⟩ = ToolResult.httpError s ∧
    get_property_valuation_handle ⟨s, b⟩ = ToolResult.httpError s ∧
    get_rent_estimate_handle ⟨s, b⟩ = ToolResult.httpError s ∧
    get_market_statistics_handle ⟨s, b⟩ = ToolResult.httpError s ∧
    get_property_listings_handle ⟨s, b⟩ = ToolResult.httpError s ∧
    get_property_records_handle ⟨s, b⟩ = ToolResult.httpError s ∧
    get_random_property_records_handle ⟨s, b⟩ = ToolResult.httpError s ∧
    get_property_record_by_id_handle ⟨s, b⟩ = ToolResult.httpError s ∧
    get_sale_listings_handle ⟨s, b⟩ = ToolResult.httpError s ∧
    get_sale_listing_by_id_handle ⟨s, b⟩ = ToolResult.httpError s ∧
    get_rental_listings_handle ⟨s, b⟩ = ToolResult.httpError s ∧
    get_rental_listing_by_id_handle ⟨s, b⟩ = ToolResult.httpError s := by
  intro s b h2xx h404
  have hb : (s == 404) = false := beq_eq_false_iff_ne.mpr h404
  simp [get_property_data_handle, get_property_valuation_handle, get_rent_estimate_handle,
    get_market_statistics_handle, get_property_listings_handle, get_property_records_handle,
    get_random_property_records_handle, get_property_record_by_id_handle,
    get_sale_listings_handle, get_sale_listing_by_id_handle, get_rental_listings_handle,
    get_rental_listing_by_id_handle, listToolHandle, h2xx, hb]

/-- Witness for C6 at the concrete status 500. -/
theorem C6_witness :
    get_property_data_handle ⟨500, Json.null⟩ = ToolResult.httpError 500 :=
  (C6_other_statuses_propagate 500 Json.null rfl (by decide)).1

/-- C10: `get_property_data` and `get_property_record_by_id` issue the
identical upstream request (`GET /properties/{id}`, no query parameters),
agree on every 2xx response and on every non-404 status, and differ only at
404, where the former returns the suggestion payload and the latter
propagates the error. -/
theorem C10_data_vs_record_by_id :
    (∀ property_id, get_property_data_request property_id = get_property_record_by_id_request property_id) ∧
    (∀ property_id, get_property_data_request property_id =
      { path := "/properties/" ++ property_id, params := [] }) ∧
    (∀ s b, is2xx s = true →
      get_property_data_handle ⟨s, b⟩ = ToolResult.ok b ∧
      get_property_record_by_id_handle ⟨s, b⟩ = ToolResult.ok b) ∧
    (∀ b, get_property_data_handle ⟨404, b⟩ = ToolResult.ok notFoundPayload ∧
      get_property_record_by_id_handle ⟨404, b⟩ = ToolResult.httpError 404) ∧
    (∀ s b, s ≠ 404 →
      get_property_data_handle ⟨s, b⟩ = get_property_record_by_id_handle ⟨s, b⟩) := by
  refine ⟨fun _ => rfl, fun _ => rfl, ?_, fun b => ⟨rfl, rfl⟩, ?_⟩
  · intro s b h
    constructor <;> simp [get_property_data_handle, get_property_record_by_id_handle, h]
  · intro s b h
    have hb : (s == 404) = false := beq_eq_false_iff_ne.mpr h
    simp [get_property_data_handle, get_property_record_by_id_handle, hb]

/-- Witness for C10 at the concrete status 200. -/
theorem C10_witness :
    get_property_data_handle ⟨200, Json.null⟩ = ToolResult.ok Json.null ∧
    get_property_record_by_id_handle ⟨200, Json.null⟩ = ToolResult.ok Json.null :=
  C10_data_vs_record_by_id.2.2.1 200 Json.null rfl

/-- C3, counterexample: on a 2xx response whose body is the empty object
(an object without the wrapping key), `get_property_records` returns the
empty sequence, not the one-element wrap `[{}]` the claim demands; and on a
body whose wrapping-key field is not a sequence the result is that bare
value, not a sequence. -/
theorem C3_counterexample :
    get_property_records_handle ⟨200, Json.obj []⟩ = ToolResult.ok (Json.arr []) ∧
    Json.arr ([] : List Json) ≠ Json.arr [Json.obj []] ∧
    get_property_records_handle ⟨200, Json.obj [("properties", Json.num 5)]⟩ =
      ToolResult.ok (Json.num 5) := by
  refine ⟨rfl, by simp, rfl⟩

/-- C3 (amended): on the 2xx path the four ListCoerce tools apply the
coercion with their wrapping key (`"properties"` for the record tools,
`"listings"` for the listing tools); the coercion returns a sequence as-is,
returns the wrapping-key field's value from an object containing the key
(even when that value is not a sequence), wraps any other non-empty object
into a one-element sequence, and maps the empty object (which is falsy in
Python) to the empty sequence. -/
theorem C3_amended :
    (∀ s b, is2xx s = true →
      get_property_records_handle ⟨s, b⟩ = ToolResult.ok (listCoerce "properties" b) ∧
      get_random_property_records_handle ⟨s, b⟩ = ToolResult.ok (listCoerce "properties" b) ∧
      get_sale_listings_handle ⟨s, b⟩ = ToolResult.ok (listCoerce "listings" b) ∧
      get_rental_listings_handle ⟨s, b⟩ = ToolResult.ok (listCoerce "listings" b)) ∧
    (∀ (k : String) (xs : List Json), listCoerce k (Json.arr xs) = Json.arr xs) ∧
    (∀ (k : String) (fs : List (String × Json)), hasKey fs k = true →
      listCoerce k (Json.obj fs) = getKeyD fs k) ∧
    (∀ (k : String) (fs : List (String × Json)), hasKey fs k = false → fs ≠ [] →
      listCoerce k (Json.obj fs) = Json.arr [Json.obj fs]) ∧
    (∀ k : String, listCoerce k (Json.obj []) = Json.arr []) := by
  refine ⟨?_, fun _ _ => rfl, ?_, ?_, fun _ => rfl⟩
  · intro s b h
    refine ⟨?_, ?_, ?_, ?_⟩ <;>
      simp [get_property_records_handle, get_random_property_records_handle,
        get_sale_listings_handle, get_rental_listings_handle, listToolHandle, h]
  · intro k fs h
    simp [listCoerce, h]
  · intro k fs hk hne
    cases fs with
    | nil => exact absurd rfl hne
    | cons hd tl => simp [listCoerce, hk, Json.isTruthy]

/-- Witness for C3 at concrete inputs: a wrapped array is unwrapped, a
single non-empty object is wrapped. -/
theorem C3_witness :
    get_property_records_handle ⟨200, Json.obj [("properties", Json.arr [])]⟩ =
      ToolResult.ok (Json.arr []) ∧
    listCoerce "listings" (Json.obj [("id", Json.num 1)]) = Json.arr [Json.obj [("id", Json.num 1)]] := by
  constructor
  · exact ((C3_amended.1 200 (Json.obj [("properties", Json.arr [])]) rfl).1).trans rfl
  · exact C3_amended.2.2.2.1 "listings" [("id", Json.num 1)] rfl (by simp)

/-- A field whose key differs from `k` survives the dict assignment
`d[k] = v` unchanged. -/
theorem mem_setKey_of_ne {kv : String × Json} {fs : List (String × Json)}
    {k : String} {v : Json} (hmem : kv ∈ fs) (hne : kv.fst ≠ k) :
    kv ∈ setKey fs k v := by
  unfold setKey
  split
  · have h := List.mem_map_of_mem (fun kv' => if kv'.fst == k then (k, v) else kv') hmem
    simpa [hne] using h
  · exact List.mem_append_left _ hmem

/-- A field whose key is not `"_note"` survives the enrichment step
unchanged. -/
theorem mem_enrichFields_of_ne (terms : List String) (note : String)
    {kv : String × Json} {fs : List (String × Json)}
    (hmem : kv ∈ fs) (hne : kv.fst ≠ "_note") :
    kv ∈ enrichFields terms note fs := by
  simp only [enrichFields]
  split
  · exact mem_setKey_of_ne hmem hne
  · exact hmem

/-- C7 (amended): on a 2xx object both enrichment tools return the enriched
object, and every pre-existing top-level field whose key is not the
annotation key `"_note"` is present unchanged in the result; a pre-existing
`"_note"` field, however, can be overwritten (see the counterexample). -/
theorem C7_amended :
    ∀ (fs : List (String × Json)) (s : Nat), is2xx s = true →
    (get_property_valuation_handle ⟨s, Json.obj fs⟩ =
       ToolResult.ok (Json.obj (enrichFields valuationTerms valuationNote fs)) ∧
     get_rent_estimate_handle ⟨s, Json.obj fs⟩ =
       ToolResult.ok (Json.obj (enrichFields rentTerms rentNote fs))) ∧
    ∀ kv ∈ fs, kv.fst ≠ "_note" →
      kv ∈ enrichFields valuationTerms valuationNote fs ∧
      kv ∈ enrichFields rentTerms rentNote fs := by
  intro fs s h
  constructor
  · constructor <;> simp [get_property_valuation_handle, get_rent_estimate_handle, h]
  · intro kv hmem hne
    exact ⟨mem_enrichFields_of_ne _ _ hmem hne, mem_enrichFields_of_ne _ _ hmem hne⟩

/-- Witness for C7 at a concrete field list. -/
theorem C7_witness :
    ("sqft", Json.num 1200) ∈ enrichFields valuationTerms valuationNote [("sqft", Json.num 1200)] :=
  ((C7_amended [("sqft", Json.num 1200)] 200 rfl).2
    ("sqft", Json.num 1200) (List.mem_cons_self _ _) (by decide)).1

/-- C7, counterexample: an upstream object that already carries a `"_note"`
field (whose key matches no keyword) has that field replaced by the
annotation, so not every pre-existing field survives unchanged. -/
theorem C7_counterexample :
    get_property_valuation_handle ⟨200, Json.obj [("_note", Json.str "upstream note")]⟩ =
      ToolResult.ok (Json.obj [("_note", Json.str valuationNote)]) ∧
    "upstream note" ≠ valuationNote :=
  ⟨rfl, by decide⟩

/-- The query key contributed by one optional argument: present exactly
when the argument is supplied. -/
def keyIfSome {α : Type} (o : Option α) (k : String) : List String :=
  if o.isSome then [k] else []

/-- Dropping the `None` entries keeps, in order, exactly the keys of the
supplied entries. -/
theorem removeNone_keys_cons (k : String) (o : Option Json) (rest : List (String × Option Json)) :
    (removeNone ((k, o) :: rest)).map Prod.fst =
      (if o.isSome then [k] else []) ++ (removeNone rest).map Prod.fst := by
  cases o <;> simp [removeNone]

/-- Dropping the `None` entries of the empty assembly yields no parameters. -/
theorem removeNone_nil : removeNone ([] : List (String × Option Json)) = [] := rfl

/-- C8: for every tool, the constructed query-parameter mapping contains
exactly (and in declaration order) the camelCase keys of the supplied
(non-`None`) arguments — no key is ever emitted for an unsupplied argument —
and each by-identifier tool sends no query parameters at all; in
particular, the listings tool called with only `zip_code = "90210"`
produces exactly `{zipCode: "90210"}`. -/
theorem C8_exact_query_keys :
    (∀ zip_code property_type bedrooms,
      (get_market_statistics_params zip_code property_type bedrooms).map Prod.fst =
        ["zipCode"] ++ keyIfSome property_type "propertyType" ++ keyIfSome bedrooms "bedrooms") ∧
    (∀ zip_code property_type min_price max_price bedrooms,
      (get_property_listings_params zip_code property_type min_price max_price bedrooms).map Prod.fst =
        ["zipCode"] ++ keyIfSome property_type "propertyType" ++ keyIfSome min_price "minPrice" ++
          keyIfSome max_price "maxPrice" ++ keyIfSome bedrooms "bedrooms") ∧
    (∀ zip_code city state property_type bedrooms bathrooms min_price max_price
        min_square_feet max_square_feet year_built page page_size,
      (get_property_records_params zip_code city state property_type bedrooms bathrooms
          min_price max_price min_square_feet max_square_feet year_built page page_size).map Prod.fst =
        keyIfSome zip_code "zipCode" ++ keyIfSome city "city" ++ keyIfSome state "state" ++
          keyIfSome property_type "propertyType" ++ keyIfSome bedrooms "bedrooms" ++
          keyIfSome bathrooms "bathrooms" ++ keyIfSome min_price "minPrice" ++
          keyIfSome max_price "maxPrice" ++ keyIfSome min_square_feet "minSquareFeet" ++
          keyIfSome max_square_feet "maxSquareFeet" ++ keyIfSome year_built "yearBuilt" ++
          keyIfSome page "page" ++ keyIfSome page_size "pageSize") ∧
    (∀ limit property_type state,
      (get_random_property_records_params limit property_type state).map Prod.fst =
        keyIfSome limit "limit" ++ keyIfSome property_type "propertyType" ++ keyIfSome state "state") ∧
    (∀ zip_code city state property_type bedrooms bathrooms min_price max_price
        min_square_feet max_square_feet year_built page page_size,
      (get_sale_listings_params zip_code city state property_type bedrooms bathrooms
          min_price max_price min_square_feet max_square_feet year_built page page_size).map Prod.fst =
        keyIfSome zip_code "zipCode" ++ keyIfSome city "city" ++ keyIfSome state "state" ++
          keyIfSome property_type "propertyType" ++ keyIfSome bedrooms "bedrooms" ++
          keyIfSome bathrooms "bathrooms" ++ keyIfSome min_price "minPrice" ++
          keyIfSome max_price "maxPrice" ++ keyIfSome min_square_feet "minSquareFeet" ++
          keyIfSome max_square_feet "maxSquareFeet" ++ keyIfSome year_built "yearBuilt" ++
          keyIfSome page "page" ++ keyIfSome page_size "pageSize") ∧
    (∀ zip_code city state property_type bedrooms bathrooms min_price max_price
        min_square_feet max_square_feet year_built page page_size,
      (get_rental_listings_params zip_code city state property_type bedrooms bathrooms
          min_price max_price min_square_feet max_square_feet year_built page page_size).map Prod.fst =
        keyIfSome zip_code "zipCode" ++ keyIfSome city "city" ++ keyIfSome state "state" ++
          keyIfSome property_type "propertyType" ++ keyIfSome bedrooms "bedrooms" ++
          keyIfSome bathrooms "bathrooms" ++ keyIfSome min_price "minPrice" ++
          keyIfSome max_price "maxPrice" ++ keyIfSome min_square_feet "minSquareFeet" ++
          keyIfSome max_square_feet "maxSquareFeet" ++ keyIfSome year_built "yearBuilt" ++
          keyIfSome page "page" ++ keyIfSome page_size "pageSize") ∧
    (∀ property_id, (get_property_data_request property_id).params = []) ∧
    (∀ property_id, (get_property_valuation_request property_id).params = []) ∧
    (∀ property_id, (get_rent_estimate_request property_id).params = []) ∧
    (∀ property_id, (get_property_record_by_id_request property_id).params = []) ∧
    (∀ listing_id, (get_sale_listing_by_id_request listing_id).params = []) ∧
    (∀ listing_id, (get_rental_listing_by_id_request listing_id).params = []) ∧
    get_property_listings_params "90210" none none none none = [("zipCode", Json.str "90210")] := by
  refine ⟨?_, ?_, ?_, ?_, ?_, ?_,
    fun _ => rfl, fun _ => rfl, fun _ => rfl, fun _ => rfl, fun _ => rfl, fun _ => rfl, rfl⟩ <;>
  · intros
    simp only [get_market_statistics_params, get_property_listings_params,
      get_property_records_params, get_random_property_records_params,
      get_sale_listings_params, get_rental_listings_params,
      removeNone_keys_cons, removeNone_nil, keyIfSome, Option.isSome_map',
      Option.isSome_some, if_true, List.map_nil, List.append_nil, List.append_assoc]

/-- The Bool guard of the annotation (`not valuation_fields and
len(data.keys()) <= 15`) holds exactly when no top-level key
case-insensitively contains a keyword and there are at most 15 keys. -/
theorem enrich_cond_iff (terms : List String) (fs : List (String × Json)) :
    (((fs.map Prod.fst).filter (fun k => terms.any (fun t => strContains t (lowerString k)))).isEmpty
        && decide (fs.length ≤ 15)) = true ↔
      ((∀ k ∈ fs.map Prod.fst, ∀ t ∈ terms, strContains t (lowerString k) = false) ∧
        fs.length ≤ 15) := by
  simp [List.isEmpty_iff, List.filter_eq_nil_iff, List.any_eq_true]

/-- The enrichment step sets the `_note` field exactly when the guard
holds, and leaves the object untouched otherwise. -/
theorem enrichFields_spec (terms : List String) (note : String) (fs : List (String × Json)) :
    ((∀ k ∈ fs.map Prod.fst, ∀ t ∈ terms, strContains t (lowerString k) = false) ∧ fs.length ≤ 15 →
      enrichFields terms note fs = setKey fs "_note" (Json.str note)) ∧
    (¬ ((∀ k ∈ fs.map Prod.fst, ∀ t ∈ terms, strContains t (lowerString k) = false) ∧ fs.length ≤ 15) →
      enrichFields terms note fs = fs) := by
  constructor
  · intro h
    have hc := (enrich_cond_iff terms fs).mpr h
    simp [enrichFields, hc]
  · intro h
    have hcc : ¬ ((((fs.map Prod.fst).filter
        (fun k => terms.any (fun t => strContains t (lowerString k)))).isEmpty
          && decide (fs.length ≤ 15)) = true) :=
      fun hcc => h ((enrich_cond_iff terms fs).mp hcc)
    have hc := Bool.eq_false_iff.mpr hcc
    simp [enrichFields, hc]

/-- C4: on a 2xx upstream object, `get_property_valuation` and
`get_rent_estimate` append their annotation field if and only if zero
top-level keys case-insensitively contain any keyword of the tool's keyword
set and the object has at most 15 top-level keys; otherwise the object is
returned unchanged. -/
theorem C4_enrichment_iff :
    ∀ (fs : List (String × Json)) (s : Nat), is2xx s = true →
    ((∀ k ∈ fs.map Prod.fst, ∀ t ∈ valuationTerms, strContains t (lowerString k) = false) ∧
        fs.length ≤ 15 →
      get_property_valuation_handle ⟨s, Json.obj fs⟩ =
        ToolResult.ok (Json.obj (setKey fs "_note" (Json.str valuationNote)))) ∧
    (¬ ((∀ k ∈ fs.map Prod.fst, ∀ t ∈ valuationTerms, strContains t (lowerString k) = false) ∧
        fs.length ≤ 15) →
      get_property_valuation_handle ⟨s, Json.obj fs⟩ = ToolResult.ok (Json.obj fs)) ∧
    ((∀ k ∈ fs.map Prod.fst, ∀ t ∈ rentTerms, strContains t (lowerString k) = false) ∧
        fs.length ≤ 15 →
      get_rent_estimate_handle ⟨s, Json.obj fs⟩ =
        ToolResult.ok (Json.obj (setKey fs "_note" (Json.str rentNote)))) ∧
    (¬ ((∀ k ∈ fs.map Prod.fst, ∀ t ∈ rentTerms, strContains t (lowerString k) = false) ∧
        fs.length ≤ 15) →
      get_rent_estimate_handle ⟨s, Json.obj fs⟩ = ToolResult.ok (Json.obj fs)) := by
  intro fs s h
  refine ⟨?_, ?_, ?_, ?_⟩
  · intro hc
    simp [get_property_valuation_handle, h,
      (enrichFields_spec valuationTerms valuationNote fs).1 hc]
  · intro hc
    simp [get_property_valuation_handle, h,
      (enrichFields_spec valuationTerms valuationNote fs).2 hc]
  · intro hc
    simp [get_rent_estimate_handle, h, (enrichFields_spec rentTerms rentNote fs).1 hc]
  · intro hc
    simp [get_rent_estimate_handle, h, (enrichFields_spec rentTerms rentNote fs).2 hc]

/-- Witness for C4: `{"bedrooms":3,"sqft":1200}` gets the annotation,
`{"bedrooms":3,"price":250000}` does not (its key matches "price"). -/
theorem C4_witness :
    get_property_valuation_handle ⟨200, Json.obj [("bedrooms", Json.num 3), ("sqft", Json.num 1200)]⟩ =
      ToolResult.ok (Json.obj [("bedrooms", Json.num 3), ("sqft", Json.num 1200),
        ("_note", Json.str valuationNote)]) ∧
    get_property_valuation_handle ⟨200, Json.obj [("bedrooms", Json.num 3), ("price", Json.num 250000)]⟩ =
      ToolResult.ok (Json.obj [("bedrooms", Json.num 3), ("price", Json.num 250000)]) := by
  constructor
  · exact ((C4_enrichment_iff [("bedrooms", Json.num 3), ("sqft", Json.num 1200)] 200 rfl).1
      ⟨by decide, by decide⟩).trans rfl
  · exact (C4_enrichment_iff [("bedrooms", Json.num 3), ("price", Json.num 250000)] 200 rfl).2.1
      (by decide)

end RentCast
